import Mathlib

/-!
Shallow embedding of `src/resonance_audio/geometrical_acoustics/scene_manager.cc`
(namespace `vraudio`), the scene manager of the resonance-audio geometrical
acoustics subsystem, together with theorems checking the specification's claims
against it.

Modelling conventions:
* Scalar coordinates are `float` in the source.  The scene-manager code only
  copies and stores them (no arithmetic), so coordinates, radii and positions
  are embedded over an arbitrary type `α`.
* `ReflectionKernel` is an opaque property bundle copied by value; it is
  embedded as an arbitrary type `κ`.
* `std::unordered_map<unsigned int, size_t>` is embedded as an association
  list with unique keys; `m[k] = v` is `mapInsert`, lookup is `mapLookup`.
* `std::unordered_set<unsigned int>` iteration visits each element once in an
  unspecified order; the embedding takes the iteration order as a `List Nat`
  argument, so theorems quantify over all orders.
* Embree calls: `rtcAttachGeometry` on a freshly created scene assigns
  geometry ids sequentially starting from 0 (one geometry per call); a
  released-and-recreated scene starts over from 0.  `rtcSetNewGeometryBuffer`
  returns a fresh buffer which the code then fills; the embedding records the
  filled buffer contents.  The padding float `a` of the source's
  `EmbreeVertex` is never written by the code and is omitted.
-/

namespace Resonance

/-- A vertex of the caller's mesh: 3 scalar coordinates (`Vertex` of the
repository's mesh types). -/
structure Vertex (α : Type) where
  x : α
  y : α
  z : α
  deriving DecidableEq

/-- A triangle of the caller's mesh: three vertex indices `v0 v1 v2` in the
caller's winding order. -/
structure Triangle where
  v0 : Nat
  v1 : Nat
  v2 : Nat
  deriving DecidableEq

/-- One entry of the Embree vertex buffer filled by `BuildScene`.  The source
struct has a fourth float `a` used only for alignment padding and never
written by the code; it is omitted here. -/
structure EmbreeVertex (α : Type) where
  x : α
  y : α
  z : α
  deriving DecidableEq

/-- An acoustic listener: a position in space (`listener.position[0..2]`). -/
structure AcousticListener (α : Type) where
  p0 : α
  p1 : α
  p2 : α
  deriving DecidableEq

/-- The `Sphere` record allocated per listener by `BuildListenerScene`:
center, radius, and the geometry id assigned by the acceleration structure. -/
structure Sphere (α : Type) where
  c0 : α
  c1 : α
  c2 : α
  radius : α
  geometry_id : Nat
  deriving DecidableEq

/-- One custom-primitive geometry of the listener scene, as configured by
`BuildListenerScene`: its id from `rtcAttachGeometry`, its user primitive
count from `rtcSetGeometryUserPrimitiveCount` (always 1 in the source), and
the `Sphere` attached as user data via `rtcSetGeometryUserData` (the bounds
and intersection callbacks installed on it are the fixed adapters below). -/
structure ListenerGeometry (α : Type) where
  id : Nat
  userPrimitiveCount : Nat
  sphere : Sphere α
  deriving DecidableEq

/-- Lookup in an association list with `Nat` keys (embedding of
`std::unordered_map` find). -/
def mapLookup (m : List (Nat × Nat)) (k : Nat) : Option Nat :=
  match m with
  | [] => none
  | (k', v) :: rest => if k' = k then some v else mapLookup rest k

/-- Insert-or-assign in an association list with unique `Nat` keys (embedding
of `std::unordered_map` `m[k] = v`). -/
def mapInsert (m : List (Nat × Nat)) (k v : Nat) : List (Nat × Nat) :=
  match m with
  | [] => [(k, v)]
  | (k', v') :: rest =>
      if k' = k then (k, v) :: rest else (k', v') :: mapInsert rest k v

/-- The state of `SceneManager`: counts and Embree buffers of the world
(triangle) scene, the reflection-kernel registry and triangle→kernel map, and
the listener scene's geometries and sphere→listener map. -/
structure SceneManager (α κ : Type) where
  num_vertices_ : Nat
  num_triangles_ : Nat
  embree_vertex_array : List (EmbreeVertex α)
  embree_index_array : List Nat
  is_scene_committed_ : Bool
  reflections_ : List κ
  triangle_to_reflection_map_ : List (Nat × Nat)
  listener_geometries : List (ListenerGeometry α)
  sphere_to_listener_map_ : List (Nat × Nat)
  is_listener_scene_committed_ : Bool
  deriving DecidableEq

/-- State after `SceneManager::SceneManager()`: both scenes freshly created
and empty, counts zero, registries empty (the members' in-class initializers
live in `scene_manager.h`; zero/empty is their only consistent value, and the
constructor body creates only the device and the two empty scenes). -/
def initSceneManager (α κ : Type) : SceneManager α κ :=
  { num_vertices_ := 0
    num_triangles_ := 0
    embree_vertex_array := []
    embree_index_array := []
    is_scene_committed_ := false
    reflections_ := []
    triangle_to_reflection_map_ := []
    listener_geometries := []
    sphere_to_listener_map_ := []
    is_listener_scene_committed_ := false }

/-- The Embree index buffer written by the `BuildScene` loop: for triangle `i`
it writes `3i ↦ v0`, `3i+1 ↦ v2`, `3i+2 ↦ v1` (the winding-order re-ordering
`{v0, v1, v2} -> {v0, v2, v1}` of lines 112–116). -/
def embreeIndexArrayOf : List Triangle → List Nat
  | [] => []
  | t :: ts => t.v0 :: t.v2 :: t.v1 :: embreeIndexArrayOf ts

/-- `SceneManager::BuildScene`: records vertex/triangle counts, copies vertex
positions into the Embree vertex buffer, copies triangle indices with the
second and third index swapped, commits the scene. -/
def SceneManager.BuildScene (s : SceneManager α κ) (vertex_buffer : List (Vertex α))
    (triangle_buffer : List Triangle) : SceneManager α κ :=
  { s with
      num_vertices_ := vertex_buffer.length
      num_triangles_ := triangle_buffer.length
      embree_vertex_array := vertex_buffer.map (fun v => ⟨v.x, v.y, v.z⟩)
      embree_index_array := embreeIndexArrayOf triangle_buffer
      is_scene_committed_ := true }

/-- The loop of `SceneManager::AssociateReflectionKernelToTriangles` (lines
127–132): for each triangle index in iteration order, return `false` as soon
as an index is `≥ num_triangles_`, otherwise assign
`triangle_to_reflection_map_[triangle_index] = reflection_index`.  Returns the
result and the (possibly partially updated) map. -/
def associateLoop (num_triangles reflection_index : Nat) :
    List Nat → List (Nat × Nat) → Bool × List (Nat × Nat)
  | [], m => (true, m)
  | i :: rest, m =>
      if i ≥ num_triangles then (false, m)
      else associateLoop num_triangles reflection_index rest
        (mapInsert m i reflection_index)

/-- `SceneManager::AssociateReflectionKernelToTriangles`: appends the kernel
to `reflections_` (unconditionally, before the loop), then runs the
per-index loop; returns the loop's boolean result and the new state. -/
def SceneManager.AssociateReflectionKernelToTriangles (s : SceneManager α κ)
    (reflection : κ) (triangle_indices : List Nat) : Bool × SceneManager α κ :=
  let reflection_index := s.reflections_.length
  let r := associateLoop s.num_triangles_ reflection_index triangle_indices
    s.triangle_to_reflection_map_
  (r.1, { s with
            reflections_ := s.reflections_ ++ [reflection]
            triangle_to_reflection_map_ := r.2 })

/-- The loop of `SceneManager::BuildListenerScene` (lines 144–172): for each
listener, create a user geometry with user primitive count 1, attach it to the
(fresh) listener scene — which assigns the sequential geometry id
`listener_index` — allocate a `Sphere` with the listener's position, the given
radius and that id, attach it as user data, and assign
`sphere_to_listener_map_[sphere_id] = listener_index`.  Returns the geometry
list and the updated map (the map is not cleared beforehand in the source). -/
def buildListenerLoop (radius : α) :
    List (AcousticListener α) → Nat → List (Nat × Nat) →
      List (ListenerGeometry α) × List (Nat × Nat)
  | [], _, m => ([], m)
  | l :: rest, listener_index, m =>
      let sphere_id := listener_index
      let sphere : Sphere α := ⟨l.p0, l.p1, l.p2, radius, sphere_id⟩
      let geom : ListenerGeometry α := ⟨sphere_id, 1, sphere⟩
      let r := buildListenerLoop radius rest (listener_index + 1)
        (mapInsert m sphere_id listener_index)
      (geom :: r.1, r.2)

/-- `SceneManager::BuildListenerScene`: releases the previous listener scene,
creates a fresh one (so geometry ids restart from 0), runs the per-listener
loop, and commits.  `sphere_to_listener_map_` carries over from the previous
state: the source never clears it. -/
def SceneManager.BuildListenerScene (s : SceneManager α κ)
    (listeners : List (AcousticListener α)) (listener_sphere_radius : α) :
    SceneManager α κ :=
  let r := buildListenerLoop listener_sphere_radius listeners 0
    s.sphere_to_listener_map_
  { s with
      listener_geometries := r.1
      sphere_to_listener_map_ := r.2
      is_listener_scene_committed_ := true }

/-- Modelled from the spec: `ReflectionKernelForTriangle(triangle_index) ->
optional kernel` is declared in `scene_manager.h`, which is not among the
provided sources.  Per the spec it looks up the triangle index in the
triangle→kernel-index map and yields the kernel at that index of the registry
list; a triangle with no map entry has no associated kernel. -/
def SceneManager.ReflectionKernelForTriangle (s : SceneManager α κ) (i : Nat) :
    Option κ :=
  match mapLookup s.triangle_to_reflection_map_ i with
  | none => none
  | some ri => s.reflections_[ri]?

/-- Modelled from the spec: `ListenerIndexForGeometry(geometry_id) -> optional
listener_index` is declared in `scene_manager.h`, which is not among the
provided sources.  Per the spec it is the lookup into the sphere→listener
map. -/
def SceneManager.ListenerIndexForGeometry (s : SceneManager α κ) (g : Nat) :
    Option Nat :=
  mapLookup s.sphere_to_listener_map_ g

/-- The mutating operations of `SceneManager`, for stating reachability. -/
inductive SceneOp (α κ : Type) where
  | buildScene (vs : List (Vertex α)) (ts : List Triangle)
  | associateReflectionKernelToTriangles (k : κ) (indices : List Nat)
  | buildListenerScene (ls : List (AcousticListener α)) (r : α)

/-- Apply one mutating operation to a `SceneManager` state. -/
def SceneManager.applyOp (s : SceneManager α κ) : SceneOp α κ → SceneManager α κ
  | .buildScene vs ts => s.BuildScene vs ts
  | .associateReflectionKernelToTriangles k idx =>
      (s.AssociateReflectionKernelToTriangles k idx).2
  | .buildListenerScene ls r => s.BuildListenerScene ls r

/-- Run a sequence of mutating operations from a state. -/
def SceneManager.runOps (s : SceneManager α κ) : List (SceneOp α κ) → SceneManager α κ
  | [] => s
  | op :: ops => (s.applyOp op).runOps ops

/-- The spec's registry invariant: every key of the triangle→kernel map is
strictly below the current triangle count. -/
def kernelMapInvariant (s : SceneManager α κ) : Prop :=
  ∀ p ∈ s.triangle_to_reflection_map_, p.1 < s.num_triangles_

instance (s : SceneManager α κ) : Decidable (kernelMapInvariant s) :=
  List.decidableBAll _ _

/-- The arguments of `EmbreeSphereIntersectFunction`
(`RTCIntersectFunctionNArguments`): the first slot of the validity mask
(`valid[0]`; Embree writes `-1` for a valid ray and `0` for an invalid one),
the `geometryUserPtr` viewed as an array of spheres, the ray/hit record, the
batch width `N`, and the primitive index `primID`. -/
structure IntersectArgs (α ρ : Type) where
  valid : Int
  spheres : Nat → Sphere α
  rayhit : ρ
  N : Nat
  primID : Nat

/-- `EmbreeSphereIntersectFunction` (lines 45–62): asserts `N == 1` (`none`
models the assertion firing and aborting), returns with the ray/hit record
untouched when `valid[0] != -1` (the slot does not mark the ray valid), and
otherwise resolves the sphere at `primID` from the user-data array and
delegates to `SphereIntersection`.  `SphereIntersection` lives in `sphere.h`
/ `sphere.cc`, outside this translation unit, so the adapter is parametric in
it. -/
def EmbreeSphereIntersectFunction (sphereIntersection : Sphere α → ρ → ρ)
    (args : IntersectArgs α ρ) : Option ρ :=
  if args.N ≠ 1 then none
  else if args.valid ≠ -1 then some args.rayhit
  else some (sphereIntersection (args.spheres args.primID) args.rayhit)

/-! ### Association-list lemmas -/

/-- Looking a key up after an insert-or-assign: the inserted key yields the
new value, any other key is unaffected. -/
theorem mapLookup_mapInsert (m : List (Nat × Nat)) (k v j : Nat) :
    mapLookup (mapInsert m k v) j = if k = j then some v else mapLookup m j := by
  induction m with
  | nil => by_cases hj : k = j <;> simp [mapInsert, mapLookup, hj]
  | cons p rest ih =>
    obtain ⟨a, b⟩ := p
    by_cases ha : a = k <;> by_cases hj : k = j <;>
      simp_all [mapInsert, mapLookup]

/-- Every entry of `mapInsert m k v` is an entry of `m` or the pair
`(k, v)`. -/
theorem mem_mapInsert (m : List (Nat × Nat)) (k v : Nat) :
    ∀ p ∈ mapInsert m k v, p ∈ m ∨ p = (k, v) := by
  induction m with
  | nil =>
    intro p hp
    simp [mapInsert] at hp
    exact Or.inr hp
  | cons q rest ih =>
    obtain ⟨a, b⟩ := q
    intro p hp
    by_cases ha : a = k
    · simp only [mapInsert, if_pos ha] at hp
      rcases List.mem_cons.mp hp with rfl | h
      · exact Or.inr rfl
      · exact Or.inl (List.mem_cons_of_mem _ h)
    · simp only [mapInsert, if_neg ha] at hp
      rcases List.mem_cons.mp hp with rfl | h
      · exact Or.inl (List.mem_cons_self _ _)
      · rcases ih p h with h1 | h2
        · exact Or.inl (List.mem_cons_of_mem _ h1)
        · exact Or.inr h2

/-- Appending one element and reading at the old length yields that
element. -/
theorem getElem?_append_singleton (l : List κ) (a : κ) :
    (l ++ [a])[l.length]? = some a := by
  induction l with
  | nil => rfl
  | cons x xs ih => simp [ih]

/-! ### Lemmas about the association loop -/

/-- The loop of `AssociateReflectionKernelToTriangles` succeeds exactly when
every index in the iteration order is below the triangle count. -/
theorem associateLoop_fst (n v : Nat) (S : List Nat) (m : List (Nat × Nat)) :
    (associateLoop n v S m).1 = true ↔ ∀ i ∈ S, i < n := by
  induction S generalizing m with
  | nil => simp [associateLoop]
  | cons i rest ih =>
    by_cases hi : i ≥ n
    · simp only [associateLoop, if_pos hi]
      constructor
      · intro h
        exact absurd h (by simp)
      · intro h
        exact absurd (h i (List.mem_cons_self i rest)) (by omega)
    · simp only [associateLoop, if_neg hi]
      rw [ih]
      constructor
      · intro h j hj
        rcases List.mem_cons.mp hj with rfl | hj
        · omega
        · exact h j hj
      · intro h j hj
        exact h j (List.mem_cons_of_mem i hj)

/-- When every index is valid, the loop assigns `v` to exactly the keys in
the iteration order and leaves all other keys alone. -/
theorem associateLoop_snd_lookup (n v : Nat) (S : List Nat) (m : List (Nat × Nat))
    (hall : ∀ i ∈ S, i < n) (j : Nat) :
    mapLookup (associateLoop n v S m).2 j =
      if j ∈ S then some v else mapLookup m j := by
  induction S generalizing m with
  | nil => simp [associateLoop]
  | cons i rest ih =>
    have hi : ¬ i ≥ n := by
      have := hall i (List.mem_cons_self i rest)
      omega
    simp only [associateLoop, if_neg hi]
    rw [ih _ (fun a ha => hall a (List.mem_cons_of_mem i ha))]
    by_cases hjr : j ∈ rest
    · simp [hjr, List.mem_cons]
    · simp only [if_neg hjr]
      rw [mapLookup_mapInsert]
      by_cases hji : i = j
      · subst hji
        simp [List.mem_cons]
      · have hij : ¬ j = i := fun h => hji h.symm
        have : ¬ j ∈ i :: rest := by simp [List.mem_cons, hjr, hij]
        simp [hji, this]

/-- Whether the loop succeeds or fails, every entry of the resulting map was
already present or has a key below the triangle count. -/
theorem associateLoop_snd_mem (n v : Nat) (S : List Nat) (m : List (Nat × Nat)) :
    ∀ p ∈ (associateLoop n v S m).2, p ∈ m ∨ p.1 < n := by
  induction S generalizing m with
  | nil =>
    intro p hp
    exact Or.inl hp
  | cons i rest ih =>
    intro p hp
    by_cases hi : i ≥ n
    · simp only [associateLoop, if_pos hi] at hp
      exact Or.inl hp
    · simp only [associateLoop, if_neg hi] at hp
      rcases ih _ p hp with hm | hlt
      · rcases mem_mapInsert _ _ _ p hm with h | h
        · exact Or.inl h
        · right
          rw [h]
          omega
      · exact Or.inr hlt

/-! ### Lemmas about the listener-scene loop -/

/-- The listener loop creates one geometry per listener. -/
theorem buildListenerLoop_fst_length (radius : α) (L : List (AcousticListener α)) :
    ∀ (idx : Nat) (m : List (Nat × Nat)),
      (buildListenerLoop radius L idx m).1.length = L.length := by
  induction L with
  | nil => intro idx m; rfl
  | cons l rest ih =>
    intro idx m
    simp only [buildListenerLoop, List.length_cons]
    rw [ih]

/-- The `k`-th geometry created by the listener loop starting at index `idx`:
id `idx + k`, user primitive count 1, and a sphere carrying the `k`-th
listener's position, the given radius, and the same id. -/
theorem buildListenerLoop_fst_getElem? (radius : α) (L : List (AcousticListener α)) :
    ∀ (idx : Nat) (m : List (Nat × Nat)) (k : Nat) (l : AcousticListener α),
      L[k]? = some l →
      (buildListenerLoop radius L idx m).1[k]? =
        some ⟨idx + k, 1, ⟨l.p0, l.p1, l.p2, radius, idx + k⟩⟩ := by
  induction L with
  | nil => intro idx m k l hk; simp at hk
  | cons a rest ih =>
    intro idx m k l hk
    cases k with
    | zero =>
      simp only [List.getElem?_cons_zero, Option.some.injEq] at hk
      subst hk
      simp [buildListenerLoop]
    | succ k' =>
      simp only [List.getElem?_cons_succ] at hk
      have h := ih (idx + 1) (mapInsert m idx idx) k' l hk
      have harith : idx + 1 + k' = idx + (k' + 1) := by omega
      simp only [buildListenerLoop, List.getElem?_cons_succ]
      rw [h, harith]

/-- Every geometry created by the listener loop has user primitive count 1
(the source calls `rtcSetGeometryUserPrimitiveCount(geom_1, 1)`). -/
theorem buildListenerLoop_userPrimitiveCount (radius : α)
    (L : List (AcousticListener α)) :
    ∀ (idx : Nat) (m : List (Nat × Nat)),
      ∀ g ∈ (buildListenerLoop radius L idx m).1, g.userPrimitiveCount = 1 := by
  induction L with
  | nil => intro idx m g hg; simp [buildListenerLoop] at hg
  | cons a rest ih =>
    intro idx m g hg
    simp only [buildListenerLoop, List.mem_cons] at hg
    rcases hg with rfl | hg
    · rfl
    · exact ih (idx + 1) (mapInsert m idx idx) g hg

/-- After the listener loop, a key in `[idx, idx + |L|)` resolves to itself
(the `k`-th geometry id maps to listener index `k`); any other key keeps its
previous binding. -/
theorem buildListenerLoop_snd_lookup (radius : α) (L : List (AcousticListener α)) :
    ∀ (idx : Nat) (m : List (Nat × Nat)) (j : Nat),
      mapLookup (buildListenerLoop radius L idx m).2 j =
        if idx ≤ j ∧ j < idx + L.length then some j else mapLookup m j := by
  induction L with
  | nil =>
    intro idx m j
    simp only [buildListenerLoop, List.length_nil]
    rw [if_neg (by omega)]
  | cons a rest ih =>
    intro idx m j
    simp only [buildListenerLoop, List.length_cons]
    rw [ih]
    by_cases h1 : idx + 1 ≤ j ∧ j < idx + 1 + rest.length
    · rw [if_pos h1, if_pos (by omega)]
    · rw [if_neg h1, mapLookup_mapInsert]
      by_cases h2 : idx = j
      · subst h2
        rw [if_pos rfl, if_pos (by omega)]
      · rw [if_neg h2, if_neg (by omega)]

/-! ### Lemmas about the Embree index buffer -/

/-- The index buffer written by `BuildScene` stores, for the triangle at
position `i`, its `v0` at offset `3i`, its `v2` at offset `3i + 1`, and its
`v1` at offset `3i + 2`. -/
theorem embreeIndexArrayOf_getElem? (T : List Triangle) :
    ∀ (i : Nat) (t : Triangle), T[i]? = some t →
      (embreeIndexArrayOf T)[3 * i]? = some t.v0 ∧
      (embreeIndexArrayOf T)[3 * i + 1]? = some t.v2 ∧
      (embreeIndexArrayOf T)[3 * i + 2]? = some t.v1 := by
  induction T with
  | nil => intro i t ht; simp at ht
  | cons a rest ih =>
    intro i t ht
    cases i with
    | zero =>
      simp only [List.getElem?_cons_zero, Option.some.injEq] at ht
      subst ht
      refine ⟨?_, ?_, ?_⟩ <;> simp [embreeIndexArrayOf]
    | succ i' =>
      simp only [List.getElem?_cons_succ] at ht
      have h := ih i' t ht
      have h0 : 3 * (i' + 1) = 3 * i' + 1 + 1 + 1 := by omega
      have h1 : 3 * (i' + 1) + 1 = 3 * i' + 1 + 1 + 1 + 1 := by omega
      have h2 : 3 * (i' + 1) + 2 = 3 * i' + 2 + 1 + 1 + 1 := by omega
      refine ⟨?_, ?_, ?_⟩
      · rw [h0]
        simpa only [embreeIndexArrayOf, List.getElem?_cons_succ] using h.1
      · rw [h1]
        simpa only [embreeIndexArrayOf, List.getElem?_cons_succ] using h.2.1
      · rw [h2]
        simpa only [embreeIndexArrayOf, List.getElem?_cons_succ] using h.2.2

/-! ### Bridges from the operations to their loops -/

/-- The result of `AssociateReflectionKernelToTriangles` is the loop's
result. -/
theorem associate_fst_eq (s : SceneManager α κ) (K : κ) (S : List Nat) :
    (s.AssociateReflectionKernelToTriangles K S).1 =
      (associateLoop s.num_triangles_ s.reflections_.length S
        s.triangle_to_reflection_map_).1 := rfl

/-- The triangle→kernel map after `AssociateReflectionKernelToTriangles` is
the loop's map. -/
theorem associate_map_eq (s : SceneManager α κ) (K : κ) (S : List Nat) :
    (s.AssociateReflectionKernelToTriangles K S).2.triangle_to_reflection_map_ =
      (associateLoop s.num_triangles_ s.reflections_.length S
        s.triangle_to_reflection_map_).2 := rfl

/-- `AssociateReflectionKernelToTriangles` appends the kernel to the registry
unconditionally. -/
theorem associate_reflections_eq (s : SceneManager α κ) (K : κ) (S : List Nat) :
    (s.AssociateReflectionKernelToTriangles K S).2.reflections_ =
      s.reflections_ ++ [K] := rfl

/-- `AssociateReflectionKernelToTriangles` does not change the triangle
count. -/
theorem associate_num_triangles_eq (s : SceneManager α κ) (K : κ) (S : List Nat) :
    (s.AssociateReflectionKernelToTriangles K S).2.num_triangles_ =
      s.num_triangles_ := rfl

/-- The sphere→listener map after `BuildListenerScene` is the loop's map,
seeded with the previous map (never cleared). -/
theorem buildListenerScene_map_eq (s : SceneManager α κ)
    (L : List (AcousticListener α)) (r : α) :
    (s.BuildListenerScene L r).sphere_to_listener_map_ =
      (buildListenerLoop r L 0 s.sphere_to_listener_map_).2 := rfl

/-- The geometries of the listener scene after `BuildListenerScene` are the
loop's geometries. -/
theorem buildListenerScene_geoms_eq (s : SceneManager α κ)
    (L : List (AcousticListener α)) (r : α) :
    (s.BuildListenerScene L r).listener_geometries =
      (buildListenerLoop r L 0 s.sphere_to_listener_map_).1 := rfl

/-- On success, `ReflectionKernelForTriangle` resolves every associated index
to the kernel that was just appended. -/
theorem associate_lookup_of_success (s : SceneManager α κ) (K : κ) (S : List Nat)
    (h : (s.AssociateReflectionKernelToTriangles K S).1 = true) :
    ∀ i ∈ S,
      (s.AssociateReflectionKernelToTriangles K S).2.ReflectionKernelForTriangle i
        = some K := by
  intro i hi
  rw [associate_fst_eq] at h
  have hall : ∀ a ∈ S, a < s.num_triangles_ := (associateLoop_fst _ _ _ _).mp h
  unfold SceneManager.ReflectionKernelForTriangle
  rw [associate_map_eq, associateLoop_snd_lookup _ _ _ _ hall i, if_pos hi]
  simp only []
  rw [associate_reflections_eq]
  exact getElem?_append_singleton _ _

/-! ### Theorems for the claims -/

/-- Claim C1: after `BuildScene(V, T)`, the committed mesh's index buffer
stores, for the triangle `t` at position `i` of `T`, entry `3i = t.v0`,
entry `3i+1 = t.v2` and entry `3i+2 = t.v1` (winding-order correction). -/
theorem buildScene_index_buffer_winding (s : SceneManager α κ)
    (V : List (Vertex α)) (T : List Triangle) (i : Nat) (t : Triangle)
    (ht : T[i]? = some t) :
    ((s.BuildScene V T).embree_index_array[3 * i]? = some t.v0) ∧
    ((s.BuildScene V T).embree_index_array[3 * i + 1]? = some t.v2) ∧
    ((s.BuildScene V T).embree_index_array[3 * i + 2]? = some t.v1) :=
  embreeIndexArrayOf_getElem? T i t ht

/-- Witness for C1: the spec's scenario — one triangle `(0, 1, 2)`; the
stored entries are `0, 2, 1`. -/
theorem buildScene_index_buffer_winding_witness :
    (((initSceneManager Int Int).BuildScene [] [⟨0, 1, 2⟩]).embree_index_array[3 * 0]?
        = some (Triangle.mk 0 1 2).v0) ∧
    (((initSceneManager Int Int).BuildScene [] [⟨0, 1, 2⟩]).embree_index_array[3 * 0 + 1]?
        = some (Triangle.mk 0 1 2).v2) ∧
    (((initSceneManager Int Int).BuildScene [] [⟨0, 1, 2⟩]).embree_index_array[3 * 0 + 2]?
        = some (Triangle.mk 0 1 2).v1) :=
  buildScene_index_buffer_winding (initSceneManager Int Int) [] [⟨0, 1, 2⟩] 0
    ⟨0, 1, 2⟩ rfl

/-- Claim C9: every call to `AssociateReflectionKernelToTriangles` — also a
failing one — appends the kernel to the registry list, before any index
validation. -/
theorem associate_always_appends_kernel (s : SceneManager α κ) (K : κ)
    (S : List Nat) :
    (s.AssociateReflectionKernelToTriangles K S).2.reflections_ =
      s.reflections_ ++ [K] := rfl

/-- Claim C2 (evaluation at the failing input): on a world scene with zero
triangles, associating a kernel to index set `{1}` fails, yet the registry
has grown by the kernel; with iteration order `[0, 5]` on a one-triangle
scene, the call fails and the map has additionally received the partial entry
for index 0.  This contradicts the claimed atomic apply-or-reject. -/
theorem associate_failure_mutates_state :
    ((((initSceneManager Int Int).BuildScene [] []).AssociateReflectionKernelToTriangles
        7 [1]).1 = false) ∧
    ((((initSceneManager Int Int).BuildScene [] []).AssociateReflectionKernelToTriangles
        7 [1]).2.reflections_ = [7]) ∧
    ((((initSceneManager Int Int).BuildScene [] [⟨0, 1, 2⟩]).AssociateReflectionKernelToTriangles
        7 [0, 5]).1 = false) ∧
    ((((initSceneManager Int Int).BuildScene [] [⟨0, 1, 2⟩]).AssociateReflectionKernelToTriangles
        7 [0, 5]).2.triangle_to_reflection_map_ = [(0, 0)]) :=
  ⟨rfl, rfl, rfl, rfl⟩

/-- Claim C3: `AssociateReflectionKernelToTriangles(K, S)` succeeds iff every
index in `S` is below the current triangle count, and on success
`ReflectionKernelForTriangle` yields `K` at every index of `S`. -/
theorem associate_success_iff_and_kernel_lookup (s : SceneManager α κ) (K : κ)
    (S : List Nat) :
    ((s.AssociateReflectionKernelToTriangles K S).1 = true ↔
      ∀ i ∈ S, i < s.num_triangles_) ∧
    ((∀ i ∈ S, i < s.num_triangles_) → ∀ i ∈ S,
      (s.AssociateReflectionKernelToTriangles K S).2.ReflectionKernelForTriangle i
        = some K) := by
  constructor
  · rw [associate_fst_eq]
    exact associateLoop_fst _ _ _ _
  · intro hall
    exact associate_lookup_of_success s K S
      (by rw [associate_fst_eq]; exact (associateLoop_fst _ _ _ _).mpr hall)

/-- Witness for C3: one triangle, associating kernel `5` to `{0}` succeeds
and resolves index 0 to kernel `5`. -/
theorem associate_success_iff_and_kernel_lookup_witness :
    (((initSceneManager Int Int).BuildScene [] [⟨0, 1, 2⟩]).AssociateReflectionKernelToTriangles
        5 [0]).2.ReflectionKernelForTriangle 0 = some 5 :=
  (associate_success_iff_and_kernel_lookup
      ((initSceneManager Int Int).BuildScene [] [⟨0, 1, 2⟩]) 5 [0]).2
    (by decide) 0 (by decide)

/-- Claim C10: after two successful associations sharing a triangle index,
the lookup at that index yields the later kernel (last writer wins). -/
theorem associate_last_writer_wins (s : SceneManager α κ) (K1 K2 : κ)
    (S1 S2 : List Nat) (i : Nat)
    (_h1 : (s.AssociateReflectionKernelToTriangles K1 S1).1 = true)
    (_hi1 : i ∈ S1)
    (h2 : ((s.AssociateReflectionKernelToTriangles K1 S1).2.AssociateReflectionKernelToTriangles
        K2 S2).1 = true)
    (hi2 : i ∈ S2) :
    ((s.AssociateReflectionKernelToTriangles K1 S1).2.AssociateReflectionKernelToTriangles
        K2 S2).2.ReflectionKernelForTriangle i = some K2 :=
  associate_lookup_of_success _ K2 S2 h2 i hi2

/-- Witness for C10: kernel `5` then kernel `9` both associated to index 0;
the lookup yields `9`. -/
theorem associate_last_writer_wins_witness :
    ((((initSceneManager Int Int).BuildScene [] [⟨0, 1, 2⟩]).AssociateReflectionKernelToTriangles
        5 [0]).2.AssociateReflectionKernelToTriangles 9 [0]).2.ReflectionKernelForTriangle 0
      = some 9 :=
  associate_last_writer_wins ((initSceneManager Int Int).BuildScene [] [⟨0, 1, 2⟩])
    5 9 [0] [0] 0 (by decide) (by decide) (by decide) (by decide)

/-- Claim C4 counterexample: build the listener scene with two listeners
(geometry ids 0 and 1), then rebuild with one listener (geometry id 0 only).
Geometry id 1 stems from the previous build and is not reused, yet
`ListenerIndexForGeometry 1` still yields `some 1` — the stale entry is not
discarded, refuting the claim. -/
theorem listenerScene_rebuild_stale_entry_cex :
    ((((initSceneManager Int Int).BuildListenerScene [⟨0, 0, 0⟩, ⟨1, 0, 0⟩] 1).listener_geometries.map
        (fun g => g.id)) = [0, 1]) ∧
    (((((initSceneManager Int Int).BuildListenerScene [⟨0, 0, 0⟩, ⟨1, 0, 0⟩] 1).BuildListenerScene
        [⟨0, 0, 0⟩] 1).listener_geometries.map (fun g => g.id)) = [0]) ∧
    ((((initSceneManager Int Int).BuildListenerScene [⟨0, 0, 0⟩, ⟨1, 0, 0⟩] 1).BuildListenerScene
        [⟨0, 0, 0⟩] 1).ListenerIndexForGeometry 1 = some 1) :=
  ⟨rfl, rfl, rfl⟩

/-- Claim C4 as amended: after `BuildListenerScene(L, r)` the map binds every
geometry id `k < |L|` produced by that build to listener index `k`; every
other key keeps exactly the binding it had before the call, so stale ids from
an earlier, longer build still resolve to their old listener indices instead
of "not found". -/
theorem buildListenerScene_map_amended (s : SceneManager α κ)
    (L : List (AcousticListener α)) (r : α) :
    (∀ k, k < L.length →
      (s.BuildListenerScene L r).ListenerIndexForGeometry k = some k) ∧
    (∀ g, L.length ≤ g →
      (s.BuildListenerScene L r).ListenerIndexForGeometry g =
        s.ListenerIndexForGeometry g) := by
  constructor
  · intro k hk
    unfold SceneManager.ListenerIndexForGeometry
    rw [buildListenerScene_map_eq, buildListenerLoop_snd_lookup]
    rw [if_pos ⟨Nat.zero_le _, by omega⟩]
  · intro g hg
    unfold SceneManager.ListenerIndexForGeometry
    rw [buildListenerScene_map_eq, buildListenerLoop_snd_lookup]
    rw [if_neg (by omega)]

/-- Witness for the amended C4: after rebuilding with one listener, id 0 maps
to index 0 and the stale id 1 keeps its old binding. -/
theorem buildListenerScene_map_amended_witness :
    ((((initSceneManager Int Int).BuildListenerScene [⟨0, 0, 0⟩, ⟨1, 0, 0⟩] 1).BuildListenerScene
        [⟨0, 0, 0⟩] 1).ListenerIndexForGeometry 0 = some 0) ∧
    ((((initSceneManager Int Int).BuildListenerScene [⟨0, 0, 0⟩, ⟨1, 0, 0⟩] 1).BuildListenerScene
        [⟨0, 0, 0⟩] 1).ListenerIndexForGeometry 1 =
      ((initSceneManager Int Int).BuildListenerScene [⟨0, 0, 0⟩, ⟨1, 0, 0⟩] 1).ListenerIndexForGeometry 1) :=
  ⟨(buildListenerScene_map_amended
      ((initSceneManager Int Int).BuildListenerScene [⟨0, 0, 0⟩, ⟨1, 0, 0⟩] 1)
      [⟨0, 0, 0⟩] 1).1 0 (by decide),
   (buildListenerScene_map_amended
      ((initSceneManager Int Int).BuildListenerScene [⟨0, 0, 0⟩, ⟨1, 0, 0⟩] 1)
      [⟨0, 0, 0⟩] 1).2 1 (by decide)⟩

/-- Claim C5: after `BuildListenerScene(L, r)` the listener scene holds
exactly `|L|` geometries, each with one user primitive slot, the `k`-th
carrying a sphere centered at the `k`-th listener's position with radius `r`,
and `ListenerIndexForGeometry` maps the `k`-th geometry's id back to `k`. -/
theorem buildListenerScene_geometries_spec {α κ : Type} [Zero α] [LT α]
    (s : SceneManager α κ) (L : List (AcousticListener α)) (r : α)
    (_hr : (0 : α) < r) :
    ((s.BuildListenerScene L r).listener_geometries.length = L.length) ∧
    (∀ g ∈ (s.BuildListenerScene L r).listener_geometries,
      g.userPrimitiveCount = 1) ∧
    (∀ k l, L[k]? = some l →
      ∃ g, (s.BuildListenerScene L r).listener_geometries[k]? = some g ∧
        g.sphere.c0 = l.p0 ∧ g.sphere.c1 = l.p1 ∧ g.sphere.c2 = l.p2 ∧
        g.sphere.radius = r ∧
        (s.BuildListenerScene L r).ListenerIndexForGeometry g.id = some k) := by
  refine ⟨?_, ?_, ?_⟩
  · rw [buildListenerScene_geoms_eq, buildListenerLoop_fst_length]
  · intro g hg
    rw [buildListenerScene_geoms_eq] at hg
    exact buildListenerLoop_userPrimitiveCount r L 0 _ g hg
  · intro k l hk
    have hlen : k < L.length := by
      by_contra hge
      rw [List.getElem?_eq_none (by omega)] at hk
      cases hk
    refine ⟨⟨0 + k, 1, ⟨l.p0, l.p1, l.p2, r, 0 + k⟩⟩, ?_, rfl, rfl, rfl, rfl, ?_⟩
    · rw [buildListenerScene_geoms_eq]
      exact buildListenerLoop_fst_getElem? r L 0 _ k l hk
    · unfold SceneManager.ListenerIndexForGeometry
      rw [buildListenerScene_map_eq, buildListenerLoop_snd_lookup]
      have hid : (⟨0 + k, 1, ⟨l.p0, l.p1, l.p2, r, 0 + k⟩⟩ : ListenerGeometry α).id
          = 0 + k := rfl
      rw [hid, if_pos ⟨by omega, by omega⟩]
      simp

/-- Witness for C5: the spec's scenario — one listener at `(5, 0, 0)` with
radius bound discharged at `r = 1`. -/
theorem buildListenerScene_geometries_spec_witness :
    ((initSceneManager Int Int).BuildListenerScene [⟨5, 0, 0⟩] 1).listener_geometries.length
      = 1 :=
  (buildListenerScene_geometries_spec (initSceneManager Int Int) [⟨5, 0, 0⟩] 1
    (by decide)).1

/-- Claim C6 counterexample: build a world scene with one triangle, associate
kernel `9` to triangle 0 (success), then rebuild the world scene with zero
triangles.  The reached state has map key 0 but triangle count 0, violating
the claimed invariant. -/
theorem kernelMap_invariant_violated_cex :
    ¬ kernelMapInvariant ((initSceneManager Int Int).runOps
      [SceneOp.buildScene [] [⟨0, 1, 2⟩],
       SceneOp.associateReflectionKernelToTriangles 9 [0],
       SceneOp.buildScene [] []]) := by
  decide

/-- Claim C6 as amended: the invariant "every map key is below the triangle
count" is preserved by `AssociateReflectionKernelToTriangles` (successful or
failed) and by `BuildListenerScene`; `BuildScene` preserves it only when the
new triangle buffer is at least as long as the previous count, because it
resets the count without clearing the map. -/
theorem kernelMapInvariant_preservation_amended (s : SceneManager α κ) :
    (∀ (K : κ) (S : List Nat), kernelMapInvariant s →
      kernelMapInvariant (s.AssociateReflectionKernelToTriangles K S).2) ∧
    (∀ (L : List (AcousticListener α)) (r : α), kernelMapInvariant s →
      kernelMapInvariant (s.BuildListenerScene L r)) ∧
    (∀ (V : List (Vertex α)) (T : List Triangle), kernelMapInvariant s →
      s.num_triangles_ ≤ T.length →
      kernelMapInvariant (s.BuildScene V T)) := by
  refine ⟨?_, ?_, ?_⟩
  · intro K S h p hp
    rw [associate_num_triangles_eq]
    rw [associate_map_eq] at hp
    rcases associateLoop_snd_mem _ _ _ _ p hp with hm | hlt
    · exact h p hm
    · exact hlt
  · intro L r h p hp
    exact h p hp
  · intro V T h hle p hp
    show p.1 < T.length
    have h2 : p.1 < s.num_triangles_ := h p hp
    omega

/-- Witness for the amended C6: a successful association on a one-triangle
scene preserves the invariant. -/
theorem kernelMapInvariant_preservation_amended_witness :
    kernelMapInvariant
      (((initSceneManager Int Int).BuildScene [] [⟨0, 1, 2⟩]).AssociateReflectionKernelToTriangles
        5 [0]).2 :=
  (kernelMapInvariant_preservation_amended
      ((initSceneManager Int Int).BuildScene [] [⟨0, 1, 2⟩])).1 5 [0] (by decide)

/-- Claim C7: the intersection adapter asserts that the batch width is 1
(`none` models the assertion aborting), and whenever the single-ray contract
`N = 1` holds the assertion does not fire. -/
theorem intersect_adapter_assertion (α ρ : Type) :
    (∀ (f : Sphere α → ρ → ρ) (args : IntersectArgs α ρ),
      EmbreeSphereIntersectFunction f args = none ↔ args.N ≠ 1) ∧
    (∀ (f : Sphere α → ρ → ρ) (args : IntersectArgs α ρ),
      args.N = 1 → EmbreeSphereIntersectFunction f args ≠ none) := by
  constructor
  · intro f args
    unfold EmbreeSphereIntersectFunction
    by_cases h : args.N = 1
    · rw [if_neg (by simp [h])]
      by_cases hv : args.valid ≠ -1
      · simp [hv, h]
      · simp [hv, h]
    · simp [h]
  · intro f args h
    unfold EmbreeSphereIntersectFunction
    rw [if_neg (by simp [h])]
    by_cases hv : args.valid ≠ -1
    · simp [hv]
    · simp [hv]

/-- Witness for C7: a concrete single-ray invocation on which the assertion
does not fire. -/
theorem intersect_adapter_assertion_witness :
    EmbreeSphereIntersectFunction (fun _ r => r)
      (⟨-1, fun _ => ⟨0, 0, 0, 1, 0⟩, (37 : Int), 1, 0⟩ : IntersectArgs Int Int)
      ≠ none :=
  (intersect_adapter_assertion Int Int).2 (fun _ r => r)
    (⟨-1, fun _ => ⟨0, 0, 0, 1, 0⟩, (37 : Int), 1, 0⟩ : IntersectArgs Int Int) rfl

/-- Claim C8: under the single-ray contract, an invocation whose validity
slot does not mark the ray valid returns with the ray/hit record unchanged
and never invokes the intersection routine; a valid invocation resolves the
sphere at `primID` from the user-data array and delegates to the intersection
routine on it. -/
theorem intersect_adapter_mask_dispatch (α ρ : Type)
    (f : Sphere α → ρ → ρ) (args : IntersectArgs α ρ) (hN : args.N = 1) :
    (args.valid ≠ -1 → EmbreeSphereIntersectFunction f args = some args.rayhit) ∧
    (args.valid = -1 → EmbreeSphereIntersectFunction f args =
      some (f (args.spheres args.primID) args.rayhit)) := by
  unfold EmbreeSphereIntersectFunction
  rw [if_neg (by simp [hN])]
  constructor
  · intro hv
    rw [if_pos hv]
  · intro hv
    rw [if_neg (by simp [hv])]

/-- Witness for C8: with `valid[0] = 0` the record `37` comes back untouched;
with `valid[0] = -1` the routine (here `r + 1`) is applied. -/
theorem intersect_adapter_mask_dispatch_witness :
    (EmbreeSphereIntersectFunction (fun _ r => r + 1)
      (⟨0, fun _ => ⟨0, 0, 0, 1, 0⟩, (37 : Int), 1, 0⟩ : IntersectArgs Int Int)
      = some 37) ∧
    (EmbreeSphereIntersectFunction (fun _ r => r + 1)
      (⟨-1, fun _ => ⟨0, 0, 0, 1, 0⟩, (37 : Int), 1, 0⟩ : IntersectArgs Int Int)
      = some 38) := by
  constructor
  · exact (intersect_adapter_mask_dispatch Int Int (fun _ r => r + 1)
      (⟨0, fun _ => ⟨0, 0, 0, 1, 0⟩, (37 : Int), 1, 0⟩ : IntersectArgs Int Int)
      rfl).1 (by decide)
  · have h := (intersect_adapter_mask_dispatch Int Int (fun _ r => r + 1)
      (⟨-1, fun _ => ⟨0, 0, 0, 1, 0⟩, (37 : Int), 1, 0⟩ : IntersectArgs Int Int)
      rfl).2 rfl
    simpa using h

end Resonance
